import Mathlib

/-!
Shallow embedding of royal125/MtProto_Bot (src/bot.py, src/db.py,
src/config.py): the token registry (`file_storage`), the download endpoint
(`GET /download/{token}`), the cleanup loop, the file-name sanitization of
`media_handler`, the SQLite helpers of db.py and the startup configuration
of config.py.  Machine-level details irrelevant to the verified properties
(the event loop, Telegram transport, actual disk I/O) are modelled as
explicit state: the in-memory registry is an association list with Python
dict semantics, the file system is an association list from path to size,
and time is an integer count of seconds.
-/

/-- Python `str.rstrip()` removes the trailing characters for which
`str.isspace()` holds; these are the ASCII whitespace characters (the model
covers the ASCII range, where Python and this definition agree; after the
sanitizer's filter only `' '` can remain anyway). -/
def pyIsSpace (c : Char) : Bool :=
  c = ' ' || c = '\t' || c = '\n' || c = '\x0b' || c = '\x0c' || c = '\r'

/-- The character filter of bot.py line 275:
`c.isalnum() or c in (' ', '.', '_')`.  Python's `isalnum` is Unicode-aware;
the model covers the ASCII range, where it coincides with `Char.isAlphanum`. -/
def keepChar (c : Char) : Bool :=
  c.isAlphanum || c = ' ' || c = '.' || c = '_'

/-- Python `rstrip()` on a character list: drop trailing whitespace. -/
def rstripL (l : List Char) : List Char :=
  (l.reverse.dropWhile pyIsSpace).reverse

/-- bot.py line 275 on a character list:
`"".join(c for c in file_name if c.isalnum() or c in (' ', '.', '_')).rstrip()`. -/
def sanitizeL (l : List Char) : List Char :=
  rstripL (l.filter keepChar)

/-- The name-sanitization step of `media_handler` (bot.py line 275). -/
def sanitize (s : String) : String :=
  String.mk (sanitizeL s.data)

/-- One value of the `file_storage` dict (bot.py lines 67-73); also the shape
of one row of the SQLite `files` table (db.py lines 11-20).  `created_at` is
a timestamp in seconds (`datetime.now()`). -/
structure LinkRecord where
  file_id : String
  file_name : String
  file_path : String
  file_size : Nat
  created_at : Int
deriving Repr, DecidableEq

/-- The in-memory `file_storage` dict of bot.py (and the `files` table of
db.py), modelled as an association list keyed by token with Python dict
semantics: lookups return the unique binding, insertion replaces in place. -/
abbrev Registry := List (String × LinkRecord)

/-- Dict lookup `file_storage[token]` / `token in file_storage`. -/
def lookupToken : Registry → String → Option LinkRecord
  | [], _ => none
  | (k, v) :: rest, t => if k = t then some v else lookupToken rest t

/-- Dict assignment `file_storage[token] = record`: replaces the binding in
place when the key is present, appends it otherwise. -/
def insertToken : Registry → String → LinkRecord → Registry
  | [], t, r => [(t, r)]
  | (k, v) :: rest, t, r =>
    if k = t then (t, r) :: rest else (k, v) :: insertToken rest t r

/-- Dict deletion `del file_storage[token]`. -/
def removeToken (st : Registry) (t : String) : Registry :=
  st.filter (fun p => p.1 ≠ t)

/-- The local file system: an association list from path to byte size.
A path is "on disk" iff it is a key. -/
abbrev FileSys := List (String × Nat)

/-- `Path.exists()`. -/
def fsExists : FileSys → String → Bool
  | [], _ => false
  | (k, _) :: rest, p => if k = p then true else fsExists rest p

/-- `Path.unlink()`. -/
def fsRemove (fs : FileSys) (p : String) : FileSys :=
  fs.filter (fun q => q.1 ≠ p)

/-- Writing a file of `n` bytes at `p` (create or truncate-and-write). -/
def fsSet : FileSys → String → Nat → FileSys
  | [], p, n => [(p, n)]
  | (k, v) :: rest, p, n =>
    if k = p then (p, n) :: rest else (k, v) :: fsSet rest p n

/-- `Path.stat().st_size`. -/
def fsSize (fs : FileSys) (p : String) : Nat :=
  match fs.find? (fun q => q.1 = p) with
  | some q => q.2
  | none => 0

/-- `Config.BASE_URL`'s default (config.py line 13). -/
def BASE_URL : String := "http://localhost:8000"

/-- `generate_download_url` (bot.py lines 65-74).  `secrets.token_urlsafe(16)`
is nondeterministic, so the generated token `tok` is an explicit input, as is
the current time `now` (`datetime.now()`).  The function stores the record
under `tok` unconditionally — there is no membership test on `file_storage`
before the assignment — and returns the absolute URL. -/
def generate_download_url (tok : String) (now : Int) (st : Registry)
    (file_id file_name file_path : String) (file_size : Nat) :
    Registry × String :=
  (insertToken st tok ⟨file_id, file_name, file_path, file_size, now⟩,
   BASE_URL ++ "/download/" ++ tok)

/-- `save_link` (db.py lines 26-32): `INSERT OR REPLACE INTO files`, keyed by
the `token` primary key, so an existing row with the same token is replaced.
The table is modelled as the same association map as the registry. -/
def save_link (db : Registry) (token file_id file_name file_path : String)
    (file_size : Nat) (now : Int) : Registry :=
  insertToken db token ⟨file_id, file_name, file_path, file_size, now⟩

/-- `get_link` (db.py lines 37-49): SELECT by token. -/
def get_link (db : Registry) (token : String) : Option LinkRecord :=
  lookupToken db token

/-- The UTF-8 bytes of one character (codepoint split per the standard
1/2/3/4-byte encoding); `urllib.parse.quote` percent-encodes byte by byte. -/
def utf8Bytes (c : Char) : List Nat :=
  let n := c.toNat
  if n < 128 then [n]
  else if n < 2048 then [192 + n / 64, 128 + n % 64]
  else if n < 65536 then [224 + n / 4096, 128 + (n / 64) % 64, 128 + n % 64]
  else [240 + n / 262144, 128 + (n / 4096) % 64, 128 + (n / 64) % 64, 128 + n % 64]

/-- Uppercase hexadecimal digit, as `urllib.parse.quote` emits. -/
def hexDigit (n : Nat) : Char :=
  if n < 10 then Char.ofNat (48 + n) else Char.ofNat (55 + n)

/-- The bytes `urllib.parse.quote` leaves unescaped with its default
`safe='/'`: ASCII alphanumerics, `_ . - ~` and `/`. -/
def quoteSafeByte (b : Nat) : Bool :=
  (48 ≤ b && b ≤ 57) || (65 ≤ b && b ≤ 90) || (97 ≤ b && b ≤ 122) ||
    b = 95 || b = 46 || b = 45 || b = 126 || b = 47

/-- One byte as `urllib.parse.quote` renders it. -/
def quoteByte (b : Nat) : String :=
  if quoteSafeByte b then String.mk [Char.ofNat b]
  else String.mk ['%', hexDigit (b / 16), hexDigit (b % 16)]

/-- `urllib.parse.quote(s)` (bot.py line 189): percent-encode every UTF-8
byte outside the safe set. -/
def pyQuote (s : String) : String :=
  String.join (((s.data.map utf8Bytes).flatten).map quoteByte)

/-- The response of a FastAPI route: `HTTPException(status_code=404, ...)`
or `FileResponse(path, filename, media_type, headers)`. -/
inductive HttpResponse where
  | notFound (detail : String)
  | fileResponse (path filename media_type : String)
      (headers : List (String × String))
deriving Repr, DecidableEq

/-- The HTTP status code of a response: 404 for `HTTPException(404)`,
200 for a successful `FileResponse`. -/
def statusCode : HttpResponse → Nat
  | .notFound _ => 404
  | .fileResponse _ _ _ _ => 200

/-- `download_file` (bot.py lines 183-192), the `GET /download/{token}`
endpoint.  Returns the registry after the request together with the
response.  Absent token → 404 and no mutation; present token with missing
backing file → `del file_storage[token]` then 404; otherwise a
`FileResponse` with the percent-quoted filename in `Content-Disposition`
and `Cache-Control: no-cache, no-store, must-revalidate`. -/
def download_file (st : Registry) (fs : FileSys) (token : String) :
    Registry × HttpResponse :=
  match lookupToken st token with
  | none => (st, .notFound "File not found or expired")
  | some data =>
    if fsExists fs data.file_path then
      (st, .fileResponse data.file_path data.file_name "application/octet-stream"
        [("Content-Disposition",
          "attachment; filename=\"" ++ pyQuote data.file_name ++ "\""),
         ("Cache-Control", "no-cache, no-store, must-revalidate")])
    else
      (removeToken st token, .notFound "File not found")

/-- The fixed TTL of the cleanup loop: `timedelta(hours=24)` in seconds
(bot.py line 342). -/
def TTL_SECONDS : Int := 86400

/-- One pass of the `cleanup_old_files` loop body (bot.py lines 339-352),
run at time `now` (`datetime.now()`): collect every token whose record
satisfies `current_time - created_at > timedelta(hours=24)` (strictly),
unlink each such record's file when it exists, then delete the collected
tokens from `file_storage`. -/
def cleanup_tick (now : Int) (st : Registry) (fs : FileSys) :
    Registry × FileSys :=
  let expired := st.filter (fun p => decide (now - p.2.created_at > TTL_SECONDS))
  let fs' := expired.foldl
    (fun acc p => if fsExists acc p.2.file_path then fsRemove acc p.2.file_path else acc) fs
  let st' := expired.foldl (fun acc p => removeToken acc p.1) st
  (st', fs')

/-- `delete_expired_links` (db.py lines 54-58):
`DELETE FROM files WHERE created_at < now - hours*3600` — the rows kept are
exactly those whose `created_at` is not strictly below the cutoff. -/
def delete_expired_links (db : Registry) (now : Int) (hours : Int) : Registry :=
  let cutoff := now - hours * 3600
  db.filter (fun p => decide (¬ p.2.created_at < cutoff))

/-- The media kinds `media_handler` distinguishes (bot.py lines 262-273):
document / video / audio carry an optional `file_name` (Python `None` is
`Option.none`) and a declared size; a photo carries the message-assigned
size list; `other` stands for any media kind matched by `filters.media`
that is none of the four, for which the initial `file_name = "file"`
(bot.py line 259) survives. -/
inductive Media where
  | document (file_name : Option String) (file_size : Nat)
  | video (file_name : Option String) (file_size : Nat)
  | audio (file_name : Option String) (file_size : Nat)
  | photo (sizes : List Nat)
  | other
deriving Repr, DecidableEq

/-- Python `x or default` on an optional string: `None` and the empty
string are falsy. -/
def pyOrStr (o : Option String) (d : String) : String :=
  match o with
  | none => d
  | some s => if s = "" then d else s

/-- The `file_name` computed by `media_handler` (bot.py lines 259-273)
before sanitization; `msgId` is `message.id`. -/
def extract_file_name (msgId : Nat) : Media → String
  | .document fn _ => pyOrStr fn "document"
  | .video fn _ => pyOrStr fn "video.mp4"
  | .audio fn _ => pyOrStr fn "audio.mp3"
  | .photo _ => "photo_" ++ toString msgId ++ ".jpg"
  | .other => "file"

/-- `safe_filename` as stored by `media_handler` (bot.py line 275): the
sanitized extracted name, with no further substitution — an empty
sanitization result is used as-is. -/
def media_display_name (msgId : Nat) (m : Media) : String :=
  sanitize (extract_file_name msgId m)

/-- `download_telegram_file` (bot.py lines 135-174).  The stream is a list
of chunk sizes; `errAfter = some k` means the transfer raises after the
first `k` chunks were written (so the file holds their bytes), `none` means
it completes.  On the exception path the partial file is unlinked when it
exists and `False` is returned; on success the file holds all bytes and
`True` is returned.  Progress-message rendering has no effect on the state. -/
def download_telegram_file (fs : FileSys) (path : String) (chunks : List Nat)
    (errAfter : Option Nat) : FileSys × Bool :=
  match errAfter with
  | none => (fsSet fs path chunks.sum, true)
  | some k =>
    let fs1 := fsSet fs path (chunks.take k).sum
    (if fsExists fs1 path then fsRemove fs1 path else fs1, false)

/-- The registration tail of `media_handler` (bot.py lines 259-311):
compute `safe_filename` and `download_path`, run the download, and only
`if success and download_path.exists()` measure the actual size and call
`generate_download_url`; otherwise report failure and register nothing.
Returns the registry, the file system and the generated URL (none on
failure). -/
def media_handler_register (genTok : String) (now : Int) (st : Registry)
    (fs : FileSys) (msgId : Nat) (m : Media) (chunks : List Nat)
    (errAfter : Option Nat) : Registry × FileSys × Option String :=
  let file_id := toString msgId
  let safe_filename := media_display_name msgId m
  let download_path := "downloads/" ++ file_id ++ "_" ++ safe_filename
  let res := download_telegram_file fs download_path chunks errAfter
  if res.2 && fsExists res.1 download_path then
    let actual_size := fsSize res.1 download_path
    let reg := generate_download_url genTok now st file_id safe_filename
      download_path actual_size
    (reg.1, res.1, some reg.2)
  else
    (st, res.1, none)

/-- The process environment: variable name to value, `none` when unset. -/
abbrev Env := List (String × String)

/-- `os.getenv(key)`. -/
def getenvOpt (env : Env) (k : String) : Option String :=
  match env.find? (fun p => p.1 = k) with
  | some p => some p.2
  | none => none

/-- The values `Config` (config.py lines 7-14) holds for the three
credentials.  `API_ID = int(os.getenv("API_ID", 23323985))`: when the
variable is unset the integer default is used directly; when set, the
string is converted with `int()` (modelled by `String.toInt?`; a failed
conversion raises at import, hence `Option`). -/
structure ConfigData where
  API_ID : Int
  API_HASH : String
  BOT_TOKEN : String
deriving Repr, DecidableEq

/-- Loading config.py's `Config` class body against an environment.
`none` models the import itself raising (unparsable `API_ID`). -/
def config_load (env : Env) : Option ConfigData :=
  let apiId : Option Int :=
    match getenvOpt env "API_ID" with
    | none => some 23323985
    | some s => s.toInt?
  match apiId with
  | none => none
  | some i =>
    some ⟨i, (getenvOpt env "API_HASH").getD "d24809282e7c046a98a04ca3c66659e7",
      (getenvOpt env "BOT_TOKEN").getD "8433225445:AAFSS3wf7QG7MTewIOnho7AJ7Qg3Chh0xDg"⟩

/-- `Config.validate` (config.py lines 17-26): raises iff one of the three
values is falsy — `API_ID == 0`, or an empty `API_HASH` / `BOT_TOKEN`.
`true` models the successful return. -/
def config_validate (c : ConfigData) : Bool :=
  if c.API_ID = 0 then false
  else if c.API_HASH = "" then false
  else if c.BOT_TOKEN = "" then false
  else true

/-- The observable outcome of `startup_event` (bot.py lines 197-331). -/
structure StartupOutcome where
  bot_started : Bool
  serving : Bool
deriving Repr, DecidableEq

/-- `startup_event` (bot.py lines 197-331): the whole body is wrapped in
`try/except Exception`, which prints the error and leaves `bot_started`
false — the exception never propagates, so the FastAPI app continues to
serve HTTP either way.  `bodyOk` is whether the body (validation included)
runs without raising. -/
def startup_event (bodyOk : Bool) : StartupOutcome :=
  if bodyOk then ⟨true, true⟩ else ⟨false, true⟩

/-- The two tables a full system state could hold: the in-memory
`file_storage` dict of bot.py and the SQLite `files` table of db.py. -/
structure SysState where
  file_storage : Registry
  db_files : Registry
deriving Repr, DecidableEq

/-- `file_storage = {}` (bot.py line 38): the registry a freshly started
process begins with. -/
def initial_file_storage : Registry := []

/-- The download endpoint over the full system state: bot.py never imports
db.py, so the handler reads and writes only `file_storage` and the
`db_files` table passes through untouched. -/
def download_file_sys (s : SysState) (fs : FileSys) (token : String) :
    SysState × HttpResponse :=
  let r := download_file s.file_storage fs token
  ({ s with file_storage := r.1 }, r.2)

/-- `generate_download_url` over the full system state: it writes only
`file_storage` (bot.py lines 65-74 touch no database). -/
def generate_download_url_sys (tok : String) (now : Int) (s : SysState)
    (file_id file_name file_path : String) (file_size : Nat) :
    SysState × String :=
  let r := generate_download_url tok now s.file_storage file_id file_name
    file_path file_size
  ({ s with file_storage := r.1 }, r.2)

/-- The cleanup pass over the full system state: `cleanup_old_files`
(bot.py lines 336-352) iterates only `file_storage` and never calls
db.py's `delete_expired_links`. -/
def cleanup_tick_sys (now : Int) (s : SysState) (fs : FileSys) :
    SysState × FileSys :=
  let r := cleanup_tick now s.file_storage fs
  ({ s with file_storage := r.1 }, r.2)

/-- `save_link` over the full system state: db.py writes only the SQLite
table, never the in-memory dict. -/
def save_link_sys (s : SysState) (token file_id file_name file_path : String)
    (file_size : Nat) (now : Int) : SysState :=
  { s with db_files :=
      save_link s.db_files token file_id file_name file_path file_size now }

theorem sanitize_star : sanitize "a*b.txt" = "ab.txt" := by decide

theorem fsExists_set_self (fs : FileSys) (p : String) (n : Nat) :
    fsExists (fsSet fs p n) p = true := by
  induction fs with
  | nil => simp [fsSet, fsExists]
  | cons q rest ih =>
    obtain ⟨k, v⟩ := q
    by_cases hk : k = p
    · simp [fsSet, hk, fsExists]
    · simp [fsSet, hk, fsExists, ih]

theorem fsExists_remove (fs : FileSys) (p x : String) :
    fsExists (fsRemove fs p) x = (fsExists fs x && !(decide (x = p))) := by
  induction fs with
  | nil => simp [fsRemove, fsExists]
  | cons q rest ih =>
    obtain ⟨k, v⟩ := q
    by_cases hk : k = p
    · subst hk
      by_cases hx : x = k
      · subst hx
        simpa [fsRemove, List.filter_cons, fsExists] using ih
      · simpa [fsRemove, List.filter_cons, fsExists, Ne.symm hx, hx] using ih
    · by_cases hkx : k = x
      · have hxp : ¬ x = p := fun he => hk (hkx.trans he)
        simp [fsRemove, List.filter_cons, hk, fsExists, hkx, hxp]
      · simpa [fsRemove, List.filter_cons, hk, fsExists, hkx] using ih

theorem lookup_remove_self (st : Registry) (t : String) :
    lookupToken (removeToken st t) t = none := by
  induction st with
  | nil => rfl
  | cons p rest ih =>
    by_cases h : p.1 = t
    · simpa [removeToken, List.filter_cons, h] using ih
    · simpa [removeToken, List.filter_cons, h, lookupToken] using ih

theorem lookup_remove_other (st : Registry) (t u : String) (h : u ≠ t) :
    lookupToken (removeToken st t) u = lookupToken st u := by
  induction st with
  | nil => rfl
  | cons p rest ih =>
    obtain ⟨k, v⟩ := p
    by_cases hk : k = t
    · subst hk
      simpa [removeToken, List.filter_cons, lookupToken, Ne.symm h] using ih
    · by_cases hu : k = u
      · subst hu
        simp [removeToken, List.filter_cons, hk, lookupToken, h]
      · simpa [removeToken, List.filter_cons, hk, lookupToken, hu] using ih

theorem lookup_eq_none_iff (st : Registry) (u : String) :
    lookupToken st u = none ↔ ∀ p ∈ st, p.1 ≠ u := by
  induction st with
  | nil => simp [lookupToken]
  | cons p rest ih =>
    by_cases hp : p.1 = u
    · simp [lookupToken, hp]
    · simp [lookupToken, hp, ih]

theorem mem_of_lookup_eq_some (st : Registry) (u : String) (r : LinkRecord)
    (h : lookupToken st u = some r) : (u, r) ∈ st := by
  induction st with
  | nil => simp [lookupToken] at h
  | cons p rest ih =>
    obtain ⟨k, v⟩ := p
    by_cases hk : k = u
    · subst hk
      simp only [lookupToken, eq_self_iff_true, if_true, Option.some.injEq] at h
      subst h
      exact List.mem_cons_self _ _
    · simp only [lookupToken, if_neg hk] at h
      exact List.mem_cons_of_mem _ (ih h)

theorem lookup_of_mem_nodup (st : Registry) (u : String) (r : LinkRecord)
    (hn : (st.map Prod.fst).Nodup) (hm : (u, r) ∈ st) :
    lookupToken st u = some r := by
  induction st with
  | nil => simp at hm
  | cons p rest ih =>
    simp only [List.map_cons, List.nodup_cons] at hn
    rcases List.mem_cons.1 hm with he | hm'
    · subst he
      simp [lookupToken]
    · have hp : ¬ p.1 = u := by
        intro he
        exact hn.1 (he ▸ (List.mem_map.2 ⟨(u, r), hm', rfl⟩))
      simp [lookupToken, hp, ih hn.2 hm']

theorem lookup_insert_self (st : Registry) (t : String) (r : LinkRecord) :
    lookupToken (insertToken st t r) t = some r := by
  induction st with
  | nil => simp [insertToken, lookupToken]
  | cons p rest ih =>
    obtain ⟨k, v⟩ := p
    by_cases hk : k = t
    · simp [insertToken, lookupToken, hk]
    · simp [insertToken, lookupToken, hk, ih]

theorem lookup_insert_other (st : Registry) (t u : String) (r : LinkRecord)
    (h : u ≠ t) : lookupToken (insertToken st t r) u = lookupToken st u := by
  induction st with
  | nil => simp [insertToken, lookupToken, Ne.symm h]
  | cons p rest ih =>
    obtain ⟨k, v⟩ := p
    by_cases hk : k = t
    · subst hk
      simp [insertToken, lookupToken, Ne.symm h]
    · by_cases hu : k = u
      · subst hu
        simp [insertToken, lookupToken, hk, h]
      · simp [insertToken, lookupToken, hk, hu, ih]

/-- C5: a token absent from the registry — never issued, expired or
evicted — makes `GET /download/{token}` fail with a 404 `NotFound`
response, and the request leaves the registry unchanged. -/
theorem C5_absent_token_404 (st : Registry) (fs : FileSys) (t : String)
    (h : lookupToken st t = none) :
    download_file st fs t = (st, .notFound "File not found or expired") ∧
    statusCode (download_file st fs t).2 = 404 := by
  simp [download_file, h, statusCode]

/-- C5 witness: a random 22-character token (the length
`secrets.token_urlsafe(16)` produces) that was never issued resolves to 404
against a nonempty registry, which is left unchanged. -/
theorem C5_absent_token_404_witness :
    download_file [("tok0", ⟨"1", "a.txt", "downloads/1_a.txt", 3, 0⟩)]
        [("downloads/1_a.txt", 3)] "Zx9Qw8Er7Ty6Ui5Op4As3D" =
      ([("tok0", ⟨"1", "a.txt", "downloads/1_a.txt", 3, 0⟩)],
        .notFound "File not found or expired") ∧
    statusCode (download_file [("tok0", ⟨"1", "a.txt", "downloads/1_a.txt", 3, 0⟩)]
        [("downloads/1_a.txt", 3)] "Zx9Qw8Er7Ty6Ui5Op4As3D").2 = 404 :=
  C5_absent_token_404 _ _ _ (by decide)

/-- C4: when a token's record points at a path missing from storage, the
endpoint deletes the record (`del file_storage[token]`), answers 404, the
token no longer resolves afterwards, and no request ever streams a file
whose backing path is absent. -/
theorem C4_lazy_repair (st : Registry) (fs : FileSys) (t : String)
    (r : LinkRecord) (h1 : lookupToken st t = some r)
    (h2 : fsExists fs r.file_path = false) :
    (download_file st fs t).1 = removeToken st t ∧
    (download_file st fs t).2 = .notFound "File not found" ∧
    statusCode (download_file st fs t).2 = 404 ∧
    lookupToken (download_file st fs t).1 t = none ∧
    (∀ st' fs' t' p fn mt hd,
      (download_file st' fs' t').2 = .fileResponse p fn mt hd →
        fsExists fs' p = true) := by
  refine ⟨?_, ?_, ?_, ?_, ?_⟩
  · simp [download_file, h1, h2]
  · simp [download_file, h1, h2]
  · simp [download_file, h1, h2, statusCode]
  · simp [download_file, h1, h2, lookup_remove_self]
  · intro st' fs' t' p fn mt hd hresp
    unfold download_file at hresp
    cases hl : lookupToken st' t' with
    | none =>
      rw [hl] at hresp
      simp at hresp
    | some data =>
      rw [hl] at hresp
      dsimp only at hresp
      by_cases he : fsExists fs' data.file_path = true
      · rw [if_pos he] at hresp
        dsimp only at hresp
        injection hresp with e1 e2 e3 e4
        subst e1
        exact he
      · rw [if_neg he] at hresp
        simp at hresp

/-- C4 witness: a registered token whose backing file is gone is removed
and gets a 404. -/
theorem C4_lazy_repair_witness :
    (download_file [("tok0", ⟨"1", "a.txt", "downloads/1_a.txt", 3, 0⟩)] []
        "tok0").1 =
      removeToken [("tok0", ⟨"1", "a.txt", "downloads/1_a.txt", 3, 0⟩)] "tok0" ∧
    (download_file [("tok0", ⟨"1", "a.txt", "downloads/1_a.txt", 3, 0⟩)] []
        "tok0").2 = .notFound "File not found" ∧
    statusCode (download_file [("tok0", ⟨"1", "a.txt", "downloads/1_a.txt", 3, 0⟩)]
        [] "tok0").2 = 404 ∧
    lookupToken (download_file [("tok0", ⟨"1", "a.txt", "downloads/1_a.txt", 3, 0⟩)]
        [] "tok0").1 "tok0" = none :=
  have h := C4_lazy_repair [("tok0", ⟨"1", "a.txt", "downloads/1_a.txt", 3, 0⟩)]
    [] "tok0" ⟨"1", "a.txt", "downloads/1_a.txt", 3, 0⟩ (by decide) (by decide)
  ⟨h.1, h.2.1, h.2.2.1, h.2.2.2.1⟩

/-- C8 counterexample: for a stored display name containing a space, the
served `Content-Disposition` holds the percent-quoted name
(`a%20b`, not the display name), and the `Cache-Control` value is
`no-cache, no-store, must-revalidate`, not `no-store`. -/
theorem C8_counterexample :
    (download_file [("tok0", ⟨"1", "a b", "downloads/1_a b", 5, 0⟩)]
        [("downloads/1_a b", 5)] "tok0").2 =
      .fileResponse "downloads/1_a b" "a b" "application/octet-stream"
        [("Content-Disposition", "attachment; filename=\"a%20b\""),
         ("Cache-Control", "no-cache, no-store, must-revalidate")] ∧
    ("attachment; filename=\"a%20b\"" : String) ≠ "attachment; filename=\"a b\"" ∧
    ("no-cache, no-store, must-revalidate" : String) ≠ "no-store" := by
  refine ⟨?_, by decide, by decide⟩
  decide

/-- C8 as amended: a registered token with an existing backing file gets a
200 `FileResponse` carrying the record's path and name, with
`Content-Disposition: attachment; filename="<urlquote(displayName)>"`
(the display name percent-quoted) and
`Cache-Control: no-cache, no-store, must-revalidate` (which contains
`no-store`); the registry is unchanged. -/
theorem C8_success_headers (st : Registry) (fs : FileSys) (t : String)
    (r : LinkRecord) (h1 : lookupToken st t = some r)
    (h2 : fsExists fs r.file_path = true) :
    download_file st fs t =
      (st, .fileResponse r.file_path r.file_name "application/octet-stream"
        [("Content-Disposition",
          "attachment; filename=\"" ++ pyQuote r.file_name ++ "\""),
         ("Cache-Control", "no-cache, no-store, must-revalidate")]) ∧
    statusCode (download_file st fs t).2 = 200 := by
  constructor
  · simp [download_file, h1, h2]
  · simp [download_file, h1, h2, statusCode]

/-- C8 witness: a concrete registered token with its file on disk is served
with the quoted-filename disposition and the triple cache directive. -/
theorem C8_success_headers_witness :
    download_file [("tok0", ⟨"1", "a b", "downloads/1_a b", 5, 0⟩)]
        [("downloads/1_a b", 5)] "tok0" =
      ([("tok0", ⟨"1", "a b", "downloads/1_a b", 5, 0⟩)],
       .fileResponse "downloads/1_a b" "a b" "application/octet-stream"
        [("Content-Disposition",
          "attachment; filename=\"" ++ pyQuote "a b" ++ "\""),
         ("Cache-Control", "no-cache, no-store, must-revalidate")]) ∧
    statusCode (download_file [("tok0", ⟨"1", "a b", "downloads/1_a b", 5, 0⟩)]
        [("downloads/1_a b", 5)] "tok0").2 = 200 :=
  C8_success_headers [("tok0", ⟨"1", "a b", "downloads/1_a b", 5, 0⟩)]
    [("downloads/1_a b", 5)] "tok0" ⟨"1", "a b", "downloads/1_a b", 5, 0⟩
    (by decide) (by decide)

/-- C1 counterexample: when the freshly generated token collides with a
stored one, both `generate_download_url` and `save_link` overwrite the
record stored under that token — there is no regeneration. -/
theorem C1_counterexample :
    lookupToken (generate_download_url "tok0" 50
        [("tok0", ⟨"10", "old.txt", "downloads/10_old.txt", 3, 0⟩)]
        "11" "new.txt" "downloads/11_new.txt" 4).1 "tok0" =
      some ⟨"11", "new.txt", "downloads/11_new.txt", 4, 50⟩ ∧
    (some (⟨"11", "new.txt", "downloads/11_new.txt", 4, 50⟩ : LinkRecord) ≠
      some (⟨"10", "old.txt", "downloads/10_old.txt", 3, 0⟩ : LinkRecord)) ∧
    lookupToken (save_link
        [("tok0", ⟨"10", "old.txt", "downloads/10_old.txt", 3, 0⟩)]
        "tok0" "11" "new.txt" "downloads/11_new.txt" 4 50) "tok0" =
      some ⟨"11", "new.txt", "downloads/11_new.txt", 4, 50⟩ := by
  refine ⟨by decide, by decide, by decide⟩

/-- C1 as amended: registration stores the new record under the generated
token unconditionally, with no collision check; a record stored under any
other token is unchanged, so previously stored records are preserved
exactly when the generated token is fresh, while a colliding token's
record is overwritten (dict assignment in `generate_download_url`,
`INSERT OR REPLACE` in `save_link`). -/
theorem C1_register_fresh_preserves (tok : String) (now : Int)
    (st : Registry) (fid fnm fpath : String) (fsz : Nat) (u : String)
    (h : u ≠ tok) :
    lookupToken (generate_download_url tok now st fid fnm fpath fsz).1 u =
      lookupToken st u ∧
    lookupToken (generate_download_url tok now st fid fnm fpath fsz).1 tok =
      some ⟨fid, fnm, fpath, fsz, now⟩ ∧
    lookupToken (save_link st tok fid fnm fpath fsz now) u =
      lookupToken st u ∧
    lookupToken (save_link st tok fid fnm fpath fsz now) tok =
      some ⟨fid, fnm, fpath, fsz, now⟩ := by
  refine ⟨?_, ?_, ?_, ?_⟩
  · exact lookup_insert_other st tok u _ h
  · exact lookup_insert_self st tok _
  · exact lookup_insert_other st tok u _ h
  · exact lookup_insert_self st tok _

/-- C1 witness: with a fresh generated token, the previously stored record
is unchanged in both the dict and the table, and the new token maps to the
new record. -/
theorem C1_register_fresh_preserves_witness :
    lookupToken (generate_download_url "tok1" 50
        [("tok0", ⟨"10", "old.txt", "downloads/10_old.txt", 3, 0⟩)]
        "11" "new.txt" "downloads/11_new.txt" 4).1 "tok0" =
      lookupToken [("tok0", ⟨"10", "old.txt", "downloads/10_old.txt", 3, 0⟩)]
        "tok0" ∧
    lookupToken (generate_download_url "tok1" 50
        [("tok0", ⟨"10", "old.txt", "downloads/10_old.txt", 3, 0⟩)]
        "11" "new.txt" "downloads/11_new.txt" 4).1 "tok1" =
      some ⟨"11", "new.txt", "downloads/11_new.txt", 4, 50⟩ ∧
    lookupToken (save_link
        [("tok0", ⟨"10", "old.txt", "downloads/10_old.txt", 3, 0⟩)]
        "tok1" "11" "new.txt" "downloads/11_new.txt" 4 50) "tok0" =
      lookupToken [("tok0", ⟨"10", "old.txt", "downloads/10_old.txt", 3, 0⟩)]
        "tok0" ∧
    lookupToken (save_link
        [("tok0", ⟨"10", "old.txt", "downloads/10_old.txt", 3, 0⟩)]
        "tok1" "11" "new.txt" "downloads/11_new.txt" 4 50) "tok1" =
      some ⟨"11", "new.txt", "downloads/11_new.txt", 4, 50⟩ :=
  C1_register_fresh_preserves "tok1" 50 _ "11" "new.txt" "downloads/11_new.txt"
    4 "tok0" (by decide)

theorem mem_dropWhile {α : Type} (q : α → Bool) (l : List α) (c : α)
    (h : c ∈ l.dropWhile q) : c ∈ l := by
  induction l with
  | nil => simp at h
  | cons a rest ih =>
    by_cases ha : q a
    · rw [List.dropWhile_cons_of_pos ha] at h
      exact List.mem_cons_of_mem _ (ih h)
    · rwa [List.dropWhile_cons_of_neg ha] at h

theorem mem_rstripL (l : List Char) (c : Char) (h : c ∈ rstripL l) :
    c ∈ l := by
  unfold rstripL at h
  rw [List.mem_reverse] at h
  have := mem_dropWhile pyIsSpace l.reverse c h
  rwa [List.mem_reverse] at this

theorem mem_sanitizeL_keep (l : List Char) (c : Char) (h : c ∈ sanitizeL l) :
    keepChar c = true := by
  have := mem_rstripL _ _ h
  exact List.of_mem_filter this

theorem dropWhile_dropWhile {α : Type} (q : α → Bool) (l : List α) :
    (l.dropWhile q).dropWhile q = l.dropWhile q := by
  induction l with
  | nil => rfl
  | cons a rest ih =>
    by_cases ha : q a
    · rw [List.dropWhile_cons_of_pos ha, ih]
    · rw [List.dropWhile_cons_of_neg ha, List.dropWhile_cons_of_neg ha]

theorem rstripL_rstripL (l : List Char) : rstripL (rstripL l) = rstripL l := by
  unfold rstripL
  rw [List.reverse_reverse, dropWhile_dropWhile]

theorem sanitizeL_idem (l : List Char) : sanitizeL (sanitizeL l) = sanitizeL l := by
  have h1 : (sanitizeL l).filter keepChar = sanitizeL l :=
    List.filter_eq_self.mpr (fun c hc => mem_sanitizeL_keep l c hc)
  show rstripL ((sanitizeL l).filter keepChar) = sanitizeL l
  rw [h1]
  show rstripL (rstripL (l.filter keepChar)) = sanitizeL l
  rw [rstripL_rstripL]
  rfl

theorem head?_dropWhile {α : Type} (q : α → Bool) (l : List α) (c : α)
    (h : (l.dropWhile q).head? = some c) : q c = false := by
  induction l with
  | nil => simp at h
  | cons a rest ih =>
    by_cases ha : q a
    · rw [List.dropWhile_cons_of_pos ha] at h
      exact ih h
    · rw [List.dropWhile_cons_of_neg ha] at h
      simp only [List.head?_cons, Option.some.injEq] at h
      subst h
      exact Bool.not_eq_true _ ▸ Bool.of_not_eq_true ha

theorem getLast?_rstripL (l : List Char) (c : Char)
    (h : (rstripL l).getLast? = some c) : pyIsSpace c = false := by
  unfold rstripL at h
  rw [List.getLast?_reverse] at h
  exact head?_dropWhile pyIsSpace l.reverse c h

/-- C9: the name sanitization of `media_handler` is idempotent:
sanitizing an already-sanitized name yields the same name. -/
theorem C9_sanitize_idempotent (s : String) : sanitize (sanitize s) = sanitize s := by
  show String.mk (sanitizeL (String.mk (sanitizeL s.data)).data) = sanitize s
  rw [show (String.mk (sanitizeL s.data)).data = sanitizeL s.data from rfl,
    sanitizeL_idem]
  rfl

/-- C3 counterexample: a declared document name of `"***"` sanitizes to the
empty string, and the stored display name is that empty string, not the
placeholder `"file"` — no substitution happens when the result is empty. -/
theorem C3_counterexample :
    media_display_name 7 (Media.document (some "***") 10) = "" ∧
    media_display_name 7 (Media.document (some "***") 10) ≠ "file" := by
  exact ⟨by decide, by decide⟩

/-- C3 as amended: the stored display name of a declared file name is
exactly the sanitized name — every kept character passes the filter
(alphanumeric, space, dot, underscore) and no trailing whitespace
remains — with no placeholder substitution: when sanitization yields the
empty string, the empty string itself is stored. -/
theorem C3_display_name (msgId : Nat) (name : String) (sz : Nat)
    (h : name ≠ "") :
    media_display_name msgId (.document (some name) sz) = sanitize name ∧
    (∀ c ∈ (sanitize name).data, keepChar c = true) ∧
    (∀ c, (sanitize name).data.getLast? = some c → pyIsSpace c = false) := by
  refine ⟨?_, ?_, ?_⟩
  · simp [media_display_name, extract_file_name, pyOrStr, h]
  · intro c hc
    exact mem_sanitizeL_keep _ _ hc
  · intro c hc
    exact getLast?_rstripL _ _ hc

/-- C3 witness: the display name stored for a document declared as
`"a*b .txt "` is its sanitized form (`"ab .txt"`). -/
theorem C3_display_name_witness :
    media_display_name 7 (.document (some "a*b .txt ") 10) =
      sanitize "a*b .txt " :=
  (C3_display_name 7 "a*b .txt " 10 (by decide)).1

theorem lookup_foldl_remove (L : List (String × LinkRecord)) (st : Registry)
    (u : String) :
    lookupToken (L.foldl (fun acc p => removeToken acc p.1) st) u =
      if u ∈ L.map Prod.fst then none else lookupToken st u := by
  induction L generalizing st with
  | nil => simp
  | cons p L ih =>
    simp only [List.foldl_cons, List.map_cons, List.mem_cons]
    rw [ih]
    by_cases hu : u = p.1
    · by_cases hm : u ∈ L.map Prod.fst
      · rw [if_pos hm, if_pos (Or.inr hm)]
      · rw [if_neg hm, if_pos (Or.inl hu)]
        subst hu
        exact lookup_remove_self st p.1
    · by_cases hm : u ∈ L.map Prod.fst
      · rw [if_pos hm, if_pos (Or.inr hm)]
      · rw [if_neg hm,
          if_neg (fun hor => hor.elim (fun h => hu h) (fun h => hm h))]
        exact lookup_remove_other st p.1 u hu

theorem fsExists_step (fs : FileSys) (q x : String) :
    fsExists (if fsExists fs q then fsRemove fs q else fs) x =
      (fsExists fs x && !(decide (x = q))) := by
  by_cases h : fsExists fs q
  · simp [h, fsExists_remove]
  · by_cases hx : x = q
    · subst hx
      simp only [Bool.not_eq_true] at h
      simp [h]
    · simp [h, hx]

theorem fsExists_foldl_unlink (L : List (String × LinkRecord)) (fs : FileSys)
    (x : String) :
    fsExists (L.foldl (fun acc p =>
        if fsExists acc p.2.file_path then fsRemove acc p.2.file_path else acc)
      fs) x = true ↔
      (fsExists fs x = true ∧ ∀ p ∈ L, p.2.file_path ≠ x) := by
  induction L generalizing fs with
  | nil => simp
  | cons p L ih =>
    simp only [List.foldl_cons]
    rw [ih, fsExists_step]
    constructor
    · rintro ⟨h1, h2⟩
      rw [Bool.and_eq_true] at h1
      refine ⟨h1.1, ?_⟩
      intro q hq
      rcases List.mem_cons.1 hq with he | hm
      · subst he
        intro hcontra
        have : ¬ (x = q.2.file_path) := by simpa using h1.2
        exact this hcontra.symm
      · exact h2 q hm
    · rintro ⟨h1, h2⟩
      refine ⟨?_, fun q hq => h2 q (List.mem_cons_of_mem _ hq)⟩
      rw [Bool.and_eq_true]
      refine ⟨h1, ?_⟩
      have : p.2.file_path ≠ x := h2 p (List.mem_cons_self _ _)
      simpa using fun he => this he.symm

theorem cleanup_lookup (now : Int) (st : Registry) (fs : FileSys) (u : String)
    (hn : (st.map Prod.fst).Nodup) :
    lookupToken (cleanup_tick now st fs).1 u =
      match lookupToken st u with
      | none => none
      | some r => if now - r.created_at > TTL_SECONDS then none else some r := by
  unfold cleanup_tick
  dsimp only
  rw [lookup_foldl_remove]
  cases hl : lookupToken st u with
  | none =>
    have hkeys : ∀ p ∈ st, p.1 ≠ u := (lookup_eq_none_iff st u).1 hl
    have hnm : u ∉ (st.filter
        (fun p => decide (now - p.2.created_at > TTL_SECONDS))).map Prod.fst := by
      intro hm
      rcases List.mem_map.1 hm with ⟨p, hp, he⟩
      exact hkeys p (List.mem_filter.1 hp).1 he
    simp [hnm, hl]
  | some r =>
    by_cases hexp : now - r.created_at > TTL_SECONDS
    · have hmem : (u, r) ∈ st := mem_of_lookup_eq_some st u r hl
      have hin : u ∈ (st.filter
          (fun p => decide (now - p.2.created_at > TTL_SECONDS))).map Prod.fst :=
        List.mem_map.2 ⟨(u, r),
          List.mem_filter.2 ⟨hmem, by simpa using hexp⟩, rfl⟩
      simp [hin, hexp]
    · have hnm : u ∉ (st.filter
          (fun p => decide (now - p.2.created_at > TTL_SECONDS))).map Prod.fst := by
        intro hm
        rcases List.mem_map.1 hm with ⟨p, hp, he⟩
        rcases List.mem_filter.1 hp with ⟨hpst, hpexp⟩
        have hlp : lookupToken st u = some p.2 := by
          refine lookup_of_mem_nodup st u p.2 hn ?_
          obtain ⟨a, b⟩ := p
          simp only at he
          subst he
          exact hpst
        rw [hl] at hlp
        injection hlp with hbr
        rw [← hbr] at hpexp
        exact hexp (by simpa using hpexp)
      simp [hnm, hl, hexp]

/-- C2 counterexample: at `now = createdAt + TTL` exactly (so
`createdAt + TTL <= now` holds and the claim demands removal), the tick's
strict comparison `now - created_at > timedelta(hours=24)` is false: the
record survives the tick, its backing file is not deleted, and db.py's
`delete_expired_links` likewise keeps the boundary row. -/
theorem C2_counterexample :
    (0 : Int) + TTL_SECONDS ≤ 86400 ∧
    lookupToken (cleanup_tick 86400
        [("tok0", ⟨"1", "n.txt", "downloads/1_n.txt", 3, 0⟩)]
        [("downloads/1_n.txt", 3)]).1 "tok0" =
      some ⟨"1", "n.txt", "downloads/1_n.txt", 3, 0⟩ ∧
    fsExists (cleanup_tick 86400
        [("tok0", ⟨"1", "n.txt", "downloads/1_n.txt", 3, 0⟩)]
        [("downloads/1_n.txt", 3)]).2 "downloads/1_n.txt" = true ∧
    delete_expired_links [("tok0", ⟨"1", "n.txt", "downloads/1_n.txt", 3, 0⟩)]
      86400 24 =
      [("tok0", ⟨"1", "n.txt", "downloads/1_n.txt", 3, 0⟩)] := by
  refine ⟨by decide, by decide, by decide, by decide⟩

/-- C2 as amended: a tick at time `now` removes from the registry, and
deletes the backing file of, exactly the records with
`createdAt + TTL < now` (strictly; a record at the exact boundary
`createdAt + TTL = now` survives): the registry after the tick resolves a
token to its old record iff that record is not strictly expired; a
strictly expired record's file is gone; a path belonging to no strictly
expired record keeps its previous status; a record with
`now ≤ createdAt + TTL` still resolves after the tick; and once
`createdAt + TTL < now`, the download endpoint answers 404
`File not found or expired` after the tick. -/
theorem C2_cleanup_tick (now : Int) (st : Registry) (fs : FileSys)
    (hn : (st.map Prod.fst).Nodup) :
    (∀ u, lookupToken (cleanup_tick now st fs).1 u =
      match lookupToken st u with
      | none => none
      | some r => if now - r.created_at > TTL_SECONDS then none else some r) ∧
    (∀ u r, lookupToken st u = some r → r.created_at + TTL_SECONDS < now →
      fsExists (cleanup_tick now st fs).2 r.file_path = false) ∧
    (∀ x, (∀ p ∈ st, now - p.2.created_at > TTL_SECONDS → p.2.file_path ≠ x) →
      fsExists (cleanup_tick now st fs).2 x = fsExists fs x) ∧
    (∀ u r, lookupToken st u = some r → now ≤ r.created_at + TTL_SECONDS →
      lookupToken (cleanup_tick now st fs).1 u = some r) ∧
    (∀ u r, lookupToken st u = some r → r.created_at + TTL_SECONDS < now →
      (download_file (cleanup_tick now st fs).1 (cleanup_tick now st fs).2 u).2 =
        .notFound "File not found or expired" ∧
      statusCode (download_file (cleanup_tick now st fs).1
        (cleanup_tick now st fs).2 u).2 = 404) := by
  refine ⟨fun u => cleanup_lookup now st fs u hn, ?_, ?_, ?_, ?_⟩
  · intro u r hl hexp
    have hmem : (u, r) ∈ st := mem_of_lookup_eq_some st u r hl
    have hfilter : (u, r) ∈ st.filter
        (fun p => decide (now - p.2.created_at > TTL_SECONDS)) :=
      List.mem_filter.2 ⟨hmem, by simp; omega⟩
    rw [← Bool.not_eq_true]
    intro htrue
    have := (fsExists_foldl_unlink _ fs r.file_path).1 htrue
    exact this.2 (u, r) hfilter rfl
  · intro x hx
    cases hfs : fsExists fs x with
    | true =>
      exact (fsExists_foldl_unlink _ fs x).2
        ⟨hfs, fun p hp => hx p (List.mem_filter.1 hp).1
          (by simpa using (List.mem_filter.1 hp).2)⟩
    | false =>
      rw [← Bool.not_eq_true]
      intro htrue
      have := (fsExists_foldl_unlink _ fs x).1 htrue
      rw [hfs] at this
      exact Bool.false_ne_true this.1
  · intro u r hl hle
    rw [cleanup_lookup now st fs u hn, hl]
    have : ¬ now - r.created_at > TTL_SECONDS := by omega
    dsimp only
    rw [if_neg this]
  · intro u r hl hexp
    have hnone : lookupToken (cleanup_tick now st fs).1 u = none := by
      rw [cleanup_lookup now st fs u hn, hl]
      have : now - r.created_at > TTL_SECONDS := by omega
      dsimp only
      rw [if_pos this]
    constructor
    · simp [download_file, hnone]
    · simp [download_file, hnone, statusCode]

/-- C2 witness: in a two-record registry swept at `now = 100000`, the
record created at time 0 (strictly expired) is evicted, its file removed,
and its token now downloads as 404, while the record created at 90000
survives with its file intact. -/
theorem C2_cleanup_tick_witness :
    lookupToken (cleanup_tick 100000
        [("tokA", ⟨"1", "a", "downloads/1_a", 3, 0⟩),
         ("tokB", ⟨"2", "b", "downloads/2_b", 4, 90000⟩)]
        [("downloads/1_a", 3), ("downloads/2_b", 4)]).1 "tokA" =
      (match lookupToken
          [("tokA", ⟨"1", "a", "downloads/1_a", 3, 0⟩),
           ("tokB", ⟨"2", "b", "downloads/2_b", 4, 90000⟩)] "tokA" with
        | none => none
        | some r =>
          if (100000 : Int) - r.created_at > TTL_SECONDS then none
          else some r) ∧
    fsExists (cleanup_tick 100000
        [("tokA", ⟨"1", "a", "downloads/1_a", 3, 0⟩),
         ("tokB", ⟨"2", "b", "downloads/2_b", 4, 90000⟩)]
        [("downloads/1_a", 3), ("downloads/2_b", 4)]).2 "downloads/1_a" =
      false ∧
    lookupToken (cleanup_tick 100000
        [("tokA", ⟨"1", "a", "downloads/1_a", 3, 0⟩),
         ("tokB", ⟨"2", "b", "downloads/2_b", 4, 90000⟩)]
        [("downloads/1_a", 3), ("downloads/2_b", 4)]).1 "tokB" =
      some ⟨"2", "b", "downloads/2_b", 4, 90000⟩ :=
  have h := C2_cleanup_tick 100000
    [("tokA", ⟨"1", "a", "downloads/1_a", 3, 0⟩),
     ("tokB", ⟨"2", "b", "downloads/2_b", 4, 90000⟩)]
    [("downloads/1_a", 3), ("downloads/2_b", 4)] (by decide)
  ⟨h.1 "tokA",
   h.2.1 "tokA" ⟨"1", "a", "downloads/1_a", 3, 0⟩ (by decide) (by decide),
   h.2.2.2.1 "tokB" ⟨"2", "b", "downloads/2_b", 4, 90000⟩ (by decide)
     (by decide)⟩

/-- C6: when the inbound stream errors after `k` of the chunks, the
download deletes the partial file, returns `False`, the handler registers
nothing (the registry is unchanged and no URL is produced), and a URL is
only ever produced when the transfer ran to completion. -/
theorem C6_partial_transfer_cleanup (genTok : String) (now : Int)
    (st : Registry) (fs : FileSys) (msgId : Nat) (m : Media)
    (chunks : List Nat) (k : Nat) :
    (download_telegram_file fs
      ("downloads/" ++ toString msgId ++ "_" ++ media_display_name msgId m)
      chunks (some k)).2 = false ∧
    fsExists (media_handler_register genTok now st fs msgId m chunks
        (some k)).2.1
      ("downloads/" ++ toString msgId ++ "_" ++ media_display_name msgId m) =
      false ∧
    (media_handler_register genTok now st fs msgId m chunks (some k)).1 = st ∧
    (media_handler_register genTok now st fs msgId m chunks (some k)).2.2 =
      none ∧
    (∀ e, (media_handler_register genTok now st fs msgId m chunks e).2.2.isSome →
      e = none) := by
  have hreg : ∀ k' : Nat,
      media_handler_register genTok now st fs msgId m chunks (some k') =
      (st, (download_telegram_file fs
        ("downloads/" ++ toString msgId ++ "_" ++ media_display_name msgId m)
        chunks (some k')).1, none) := fun k' => rfl
  have hfsgone : fsExists (download_telegram_file fs
      ("downloads/" ++ toString msgId ++ "_" ++ media_display_name msgId m)
      chunks (some k)).1
      ("downloads/" ++ toString msgId ++ "_" ++ media_display_name msgId m) =
      false := by
    show fsExists (if fsExists (fsSet fs
        ("downloads/" ++ toString msgId ++ "_" ++ media_display_name msgId m)
        (chunks.take k).sum)
        ("downloads/" ++ toString msgId ++ "_" ++ media_display_name msgId m)
      then fsRemove (fsSet fs
        ("downloads/" ++ toString msgId ++ "_" ++ media_display_name msgId m)
        (chunks.take k).sum)
        ("downloads/" ++ toString msgId ++ "_" ++ media_display_name msgId m)
      else fsSet fs
        ("downloads/" ++ toString msgId ++ "_" ++ media_display_name msgId m)
        (chunks.take k).sum)
      ("downloads/" ++ toString msgId ++ "_" ++ media_display_name msgId m) =
      false
    rw [if_pos (fsExists_set_self fs _ _), fsExists_remove]
    simp
  refine ⟨rfl, ?_, ?_, ?_, ?_⟩
  · rw [hreg k]
    exact hfsgone
  · rw [hreg k]
  · rw [hreg k]
  · intro e hsome
    cases e with
    | none => rfl
    | some k' =>
      exfalso
      rw [hreg k'] at hsome
      simp at hsome

/-- C7 counterexample: with all three credential variables absent from the
environment, `Config` falls back to the hardcoded defaults and
`Config.validate` succeeds instead of failing; and even when the startup
body does raise, `startup_event` swallows the exception, so the HTTP app
serves anyway — the claimed fail-fast behaviour does not occur. -/
theorem C7_counterexample :
    getenvOpt [] "API_ID" = none ∧
    getenvOpt [] "API_HASH" = none ∧
    getenvOpt [] "BOT_TOKEN" = none ∧
    (config_load []).map config_validate = some true ∧
    (startup_event false).serving = true := by
  refine ⟨rfl, rfl, rfl, by decide, rfl⟩

/-- C7 as amended: when the credential variables are missing from the
environment, `Config` substitutes its hardcoded defaults (a nonzero
`API_ID` and nonempty `API_HASH` / `BOT_TOKEN`), so startup validation
succeeds; `Config.validate` fails only when a value is falsy (`API_ID`
zero or an empty string); and a validation failure is not fatal: the
`startup_event` handler catches every exception, leaves `bot_started`
false, and the FastAPI process keeps serving. -/
theorem C7_config_defaults (env : Env)
    (h1 : getenvOpt env "API_ID" = none)
    (h2 : getenvOpt env "API_HASH" = none)
    (h3 : getenvOpt env "BOT_TOKEN" = none) :
    config_load env = some ⟨23323985, "d24809282e7c046a98a04ca3c66659e7",
      "8433225445:AAFSS3wf7QG7MTewIOnho7AJ7Qg3Chh0xDg"⟩ ∧
    (config_load env).map config_validate = some true ∧
    (∀ c : ConfigData, config_validate c = false ↔
      (c.API_ID = 0 ∨ c.API_HASH = "" ∨ c.BOT_TOKEN = "")) ∧
    (∀ b, (startup_event b).serving = true) ∧
    (startup_event false).bot_started = false := by
  have hload : config_load env = some ⟨23323985,
      "d24809282e7c046a98a04ca3c66659e7",
      "8433225445:AAFSS3wf7QG7MTewIOnho7AJ7Qg3Chh0xDg"⟩ := by
    unfold config_load
    rw [h1, h2, h3]
    rfl
  refine ⟨hload, ?_, ?_, ?_, rfl⟩
  · rw [hload]
    rfl
  · intro c
    unfold config_validate
    by_cases hid : c.API_ID = 0
    · simp [hid]
    · by_cases hh : c.API_HASH = ""
      · simp [hid, hh]
      · by_cases hb : c.BOT_TOKEN = ""
        · simp [hid, hh, hb]
        · simp [hid, hh, hb]
  · intro b
    cases b <;> rfl

/-- C7 witness: the empty environment misses all three variables, loads the
defaults, and validates successfully. -/
theorem C7_config_defaults_witness :
    config_load [] = some ⟨23323985, "d24809282e7c046a98a04ca3c66659e7",
      "8433225445:AAFSS3wf7QG7MTewIOnho7AJ7Qg3Chh0xDg"⟩ ∧
    (config_load []).map config_validate = some true :=
  have h := C7_config_defaults [] rfl rfl rfl
  ⟨h.1, h.2.1⟩

/-- C10: the serving registry lives only in the in-memory `file_storage`
dict — the download endpoint, registration and the cleanup pass neither
read nor write the SQLite `files` table (bot.py never imports db.py), the
response is independent of the table's contents, `save_link` writes only
the table, a token present in the table but absent from `file_storage`
downloads as 404, and after a restart (`file_storage = {}` at module load)
every token downloads as 404 regardless of the table. -/
theorem C10_registry_is_in_memory_only (s : SysState) (fs : FileSys)
    (t : String) (tok fid fnm fpath : String) (fsz : Nat) (now : Int)
    (h : lookupToken s.file_storage t = none) :
    (download_file_sys s fs t).1.db_files = s.db_files ∧
    (generate_download_url_sys tok now s fid fnm fpath fsz).1.db_files =
      s.db_files ∧
    (cleanup_tick_sys now s fs).1.db_files = s.db_files ∧
    (∀ db, (download_file_sys { s with db_files := db } fs t).2 =
      (download_file_sys s fs t).2) ∧
    (save_link_sys s tok fid fnm fpath fsz now).file_storage =
      s.file_storage ∧
    (download_file_sys s fs t).2 = .notFound "File not found or expired" ∧
    (∀ db u, (download_file_sys ⟨initial_file_storage, db⟩ fs u).2 =
      .notFound "File not found or expired") := by
  refine ⟨rfl, rfl, rfl, fun db => rfl, rfl, ?_, ?_⟩
  · show (download_file s.file_storage fs t).2 = _
    rw [(C5_absent_token_404 s.file_storage fs t h).1]
  · intro db u
    show (download_file initial_file_storage fs u).2 = _
    rfl

/-- C10 witness: a row saved with `save_link` into the table of a
freshly-started process (empty `file_storage`) does not resolve: the
download answers 404 and the table is untouched by the request. -/
theorem C10_registry_is_in_memory_only_witness :
    (download_file_sys
      ⟨initial_file_storage,
       save_link [] "tok0" "1" "a.txt" "downloads/1_a.txt" 3 0⟩
      [("downloads/1_a.txt", 3)] "tok0").1.db_files =
      save_link [] "tok0" "1" "a.txt" "downloads/1_a.txt" 3 0 ∧
    (download_file_sys
      ⟨initial_file_storage,
       save_link [] "tok0" "1" "a.txt" "downloads/1_a.txt" 3 0⟩
      [("downloads/1_a.txt", 3)] "tok0").2 =
      .notFound "File not found or expired" :=
  have h := C10_registry_is_in_memory_only
    ⟨initial_file_storage, save_link [] "tok0" "1" "a.txt" "downloads/1_a.txt" 3 0⟩
    [("downloads/1_a.txt", 3)] "tok0" "tok0" "1" "a.txt" "downloads/1_a.txt"
    3 0 (by decide)
  ⟨h.1, h.2.2.2.2.2.1⟩
